import Mathlib

/-!
# Verification of the afsify/expressjs repository against its specification

The repository is a set of Express.js tutorials (Markdown documents with
embedded code snippets) together with a small demo application under
`src/Workouts`: two middleware files (`auth.js` with `verifyToken`,
`date.js` with `printDate`), a router file (`profile.router.js`) and an
application entry file that wires them together.

This development shallowly embeds the executable JavaScript of the
repository and the code snippets quoted by the specification, and proves
or refutes the specification claims about them.

Middleware is modelled as a function from a request to the updated
request together with a trace of observable events (calls to `next`,
responses sent, mutations of `req.user`, calls to `jwt.verify`, console
output).  The `jwt.verify` library call is abstracted by an oracle
`verify : String → Option String` mapping a token string to its decoded
payload when verification against the secret key succeeds; calling it on
the JavaScript value `undefined` (modelled `Option.none`) always throws,
as the real library does.
-/

/-- Observable events emitted by a middleware run. -/
inductive Event where
  | callNext : Event
  | sendResponse : Nat → String → Event
  | setUser : String → Event
  | verifyCalled : Option String → Event
  | consoleLog : String → Event
  deriving DecidableEq, Repr

/-- An HTTP request as the middleware sees it: its (lower-cased) headers
and the `req.user` field that `verifyToken` may attach. -/
structure Request where
  headers : List (String × String)
  user : Option String
  deriving DecidableEq, Repr

/-- JavaScript truthiness of a header access `req.headers[name]`: the
value is falsy exactly when the header is absent (`undefined`) or the
empty string. -/
def isFalsyHeader : Option String → Bool
  | none => true
  | some s => s = ""

/-- Splitting a character list at every occurrence of a separator,
keeping empty segments, as JavaScript `String.prototype.split` with a
single-character separator does. -/
def splitAux (sep : Char) : List Char → List Char → List (List Char)
  | [], acc => [acc.reverse]
  | c :: rest, acc =>
      if c = sep then acc.reverse :: splitAux sep rest []
      else splitAux sep rest (c :: acc)

/-- JavaScript `s.split(sep)` for a one-character separator string. -/
def jsSplit (sep : Char) (s : String) : List String :=
  (splitAux sep s.toList []).map List.asString

/-- Embeds `src/Workouts/middleware/auth.js`: the `verifyToken`
middleware.  It reads `req.headers["authorization"]`; when that value is
falsy it responds `403` with message `"Access denied, token missing"`;
otherwise it calls `jwt.verify(token.split(" ")[1], SECRET_KEY)` — an
out-of-range index yields `undefined`, on which `jwt.verify` throws —
and on any exception responds `401` with `"Invalid token"`; on success
it sets `req.user` to the decoded payload and calls `next()`. -/
def verifyToken (verify : String → Option String) (req : Request) :
    Request × List Event :=
  let token := req.headers.lookup "authorization"
  if isFalsyHeader token then
    (req, [Event.sendResponse 403 "Access denied, token missing"])
  else
    match (jsSplit ' ' (token.getD ""))[1]? with
    | none =>
        (req, [Event.verifyCalled none, Event.sendResponse 401 "Invalid token"])
    | some t =>
        match verify t with
        | none =>
            (req, [Event.verifyCalled (some t),
                   Event.sendResponse 401 "Invalid token"])
        | some payload =>
            ({ req with user := some payload },
             [Event.verifyCalled (some t), Event.setUser payload,
              Event.callNext])

/-- Embeds `src/Workouts/middleware/date.js`: the `printDate` middleware
logs the current locale time and date to the console and calls
`next()`.  The two locale strings are parameters of the embedding. -/
def printDate (timeStr dateStr : String) (req : Request) :
    Request × List Event :=
  (req, [Event.consoleLog (timeStr ++ ", " ++ dateStr), Event.callNext])

/-- How many times a trace calls `next`. -/
def nextCount (tr : List Event) : Nat :=
  tr.countP fun e => match e with | Event.callNext => true | _ => false

/-- How many responses a trace sends. -/
def responseCount (tr : List Event) : Nat :=
  tr.countP fun e => match e with | Event.sendResponse _ _ => true | _ => false

/-- The (status, body) pairs of all responses sent in a trace. -/
def failureResponses (tr : List Event) : List (Nat × String) :=
  tr.filterMap fun e =>
    match e with | Event.sendResponse s m => some (s, m) | _ => none

/-- The externally visible outcome class of a middleware trace: `none`
when control is passed to `next`, otherwise the status of the first
response sent. -/
def behaviorOf (tr : List Event) : Option Nat :=
  if 0 < nextCount tr then none
  else ((failureResponses tr).map Prod.fst).head?

/-- A middleware body free of original conditional branching produces
the same outcome class on every input. -/
def inputInsensitive (f : Request → Request × List Event) : Prop :=
  ∀ i j : Request, behaviorOf (f i).2 = behaviorOf (f j).2

/-- A concrete verification oracle used as witness input: exactly the
token string "goodtoken" verifies against the secret key. -/
def sampleVerify : String → Option String :=
  fun t => if t = "goodtoken" then some "decoded-payload" else none

/-- A request with no authorization header. -/
def reqNoAuth : Request := { headers := [("host", "localhost")], user := none }

/-- A request whose bearer token fails verification. -/
def reqBadToken : Request :=
  { headers := [("authorization", "Bearer wrongtoken")], user := none }

/-- A request whose bearer token verifies. -/
def reqGoodToken : Request :=
  { headers := [("authorization", "Bearer goodtoken")], user := none }

/-- A request whose authorization header is a bare valid token with no
"Bearer " scheme prefix and no space at all. -/
def reqBareGood : Request :=
  { headers := [("authorization", "goodtoken")], user := none }

/-!
## The remaining JavaScript functions of the demo application

`src/Workouts` also contains a router file (`profile.router.js`) and an
application entry file (recovered from the bundle; its requires place it
directly in `src/Workouts`, next to `middleware/` and `router/`).  Their
route handlers each send exactly one response.  `res.send`, `res.json`,
`res.render` and `res.sendFile` default to status `200`; the body field
records the argument of the call.
-/

/-- Embeds the `/` handler of the entry file: responds with the HTML
string `<h1>Home</h1>`. -/
def homeHandler (req : Request) : Request × List Event :=
  (req, [Event.sendResponse 200 "<h1>Home</h1>"])

/-- Embeds the `/contact` handler of the entry file: responds with the
JSON string `Contact`. -/
def contactHandler (req : Request) : Request × List Event :=
  (req, [Event.sendResponse 200 "Contact"])

/-- Embeds the `/about` handler of the entry file: renders the `about`
view. -/
def aboutHandler (req : Request) : Request × List Event :=
  (req, [Event.sendResponse 200 "about"])

/-- Embeds the `/blog` handler of the entry file: serves the file
`views/blog.html`. -/
def blogHandler (req : Request) : Request × List Event :=
  (req, [Event.sendResponse 200 "blog.html"])

/-- Embeds the catch-all `*` handler of the entry file: sets status 404
and sends `<h1>404</h1>`. -/
def wildcardHandler (req : Request) : Request × List Event :=
  (req, [Event.sendResponse 404 "<h1>404</h1>"])

/-- Embeds the `/profile` handler of `profile.router.js`: responds with
a JSON object holding the message `Profile data` and `req.user`. -/
def profileHandler (req : Request) : Request × List Event :=
  (req, [Event.sendResponse 200
           ("Profile data; user: " ++ req.user.getD "undefined")])

/-!
## Error-handling middleware from src/Error-Handling/centralized.handling.md

The file bundles two documents on error handling.  Each error-handling
middleware shown there is a four-argument function `(err, req, res,
next)`; the embedding takes the error object and the request and returns
the `(status, body)` of the single response the handler sends (none of
them call `next`).  `err.status || 500` and `err.message || d` follow
JavaScript truthiness: `undefined`, `0` and the empty string fall back
to the default.
-/

/-- A JavaScript error object, with the optional `status` and `message`
fields the handlers consult. -/
structure ErrObj where
  status : Option Nat
  message : Option String
  deriving DecidableEq, Repr

/-- JavaScript `v || d` for an optional number: `undefined` and `0` are
falsy. -/
def jsOrNat : Option Nat → Nat → Nat
  | none, d => d
  | some 0, d => d
  | some (Nat.succ n), _ => Nat.succ n

/-- JavaScript `v || d` for an optional string: `undefined` and the
empty string are falsy. -/
def jsOrStr : Option String → String → String
  | none, d => d
  | some s, d => if s = "" then d else s

/-- First document, basic example: logs the stack and responds
`500 Something went wrong!` unconditionally. -/
def basicErrorHandler (_err : ErrObj) (_req : Request) : Nat × String :=
  (500, "Something went wrong!")

/-- First document, structured-response example: responds
`err.status || 500` with `err.message || Internal Server Error`. -/
def structuredErrorHandler (err : ErrObj) (_req : Request) : Nat × String :=
  (jsOrNat err.status 500, jsOrStr err.message "Internal Server Error")

/-- First document, custom-error-class example: responds
`err.status || 500` with `err.message || Something went wrong`. -/
def customErrorHandler (err : ErrObj) (_req : Request) : Nat × String :=
  (jsOrNat err.status 500, jsOrStr err.message "Something went wrong")

/-- First document, comprehensive example: responds
`err.status || 500` with `err.message || Internal Server Error`. -/
def comprehensiveErrorHandler (err : ErrObj) (_req : Request) : Nat × String :=
  (jsOrNat err.status 500, jsOrStr err.message "Internal Server Error")

/-- Second document, basic example: responds `500 Something went
wrong!` unconditionally. -/
def basicErrorHandler2 (_err : ErrObj) (_req : Request) : Nat × String :=
  (500, "Something went wrong!")

/-- Second document, synchronous-error example: responds
`500 Synchronous error occurred` unconditionally. -/
def syncErrorHandler (_err : ErrObj) (_req : Request) : Nat × String :=
  (500, "Synchronous error occurred")

/-- Second document, asynchronous-error example: responds
`500 Asynchronous error occurred` unconditionally. -/
def asyncErrorHandler (_err : ErrObj) (_req : Request) : Nat × String :=
  (500, "Asynchronous error occurred")

/-- Second document, centralized example: logs message and stack and
responds `500` with the JSON body `Internal Server Error`. -/
def centralizedErrorHandler2 (_err : ErrObj) (_req : Request) : Nat × String :=
  (500, "Internal Server Error")

/-!
## User schemas and example documents from the database tutorials

The CRUD tutorial `src/Databases/crud.operations.md` defines a Mongoose
`User` schema twice (sections 3 and 8) and constructs two example
documents.  The introductory document (`What is Express.js?`, section 5,
Integration with Databases) defines a `UserSchema` and constructs one
example document.  The database-connection document defines a user
schema too.  The Passport document bundled inside
`crud.operations.md` constructs a `User` in its register route.
-/

/-- The type a schema declares for a field. -/
inductive FieldType where
  | str : FieldType
  | num : FieldType
  deriving DecidableEq, Repr

/-- A JavaScript literal value supplied for a field of a document. -/
inductive JsVal where
  | str : String → JsVal
  | num : Nat → JsVal
  deriving DecidableEq, Repr

/-- The `userSchema` of the CRUD tutorial, sections 3 and 8:
`{ name: String, email: String, age: Number }`. -/
def crudUserSchemaFields : List (String × FieldType) :=
  [("name", FieldType.str), ("email", FieldType.str), ("age", FieldType.num)]

/-- The `UserSchema` of the introductory document, section 5:
`{ name: String, email: String }`. -/
def introUserSchemaFields : List (String × FieldType) :=
  [("name", FieldType.str), ("email", FieldType.str)]

/-- The `userSchema` of the database-connection document: `name`
(String, required), `email` (String, required, unique), `age`
(Number). -/
def dbConnectionUserSchemaFields : List (String × FieldType) :=
  [("name", FieldType.str), ("email", FieldType.str), ("age", FieldType.num)]

/-- The document built by `createUser` in CRUD section 3:
`new User({ name: John Doe, email: john@example.com, age: 30 })`. -/
def crudCreateDoc : List (String × JsVal) :=
  [("name", JsVal.str "John Doe"), ("email", JsVal.str "john@example.com"),
   ("age", JsVal.num 30)]

/-- The document built by `createUser` in CRUD section 8:
`new User({ name: Alice, email: alice@example.com, age: 25 })`. -/
def crudCreateDoc2 : List (String × JsVal) :=
  [("name", JsVal.str "Alice"), ("email", JsVal.str "alice@example.com"),
   ("age", JsVal.num 25)]

/-- The document built in the introductory document, section 5:
`new User({ name: John Doe, email: john@example.com })`. -/
def introCreateDoc : List (String × JsVal) :=
  [("name", JsVal.str "John Doe"), ("email", JsVal.str "john@example.com")]

/-- The document built by the Passport register route bundled in
`crud.operations.md`: `new User({ username, password })`. -/
def passportRegisterDoc : List (String × JsVal) :=
  [("username", JsVal.str "username"), ("password", JsVal.str "password")]

/-- A constructed document supplies values for exactly the fields of a
schema when its field names coincide with the field names the schema
declares. -/
def suppliesExactly (doc : List (String × JsVal))
    (schema : List (String × FieldType)) : Prop :=
  doc.map Prod.fst = schema.map Prod.fst

instance (doc : List (String × JsVal)) (schema : List (String × FieldType)) :
    Decidable (suppliesExactly doc schema) := by
  unfold suppliesExactly; infer_instance

/-!
## Files of the repository and their require targets

Paths are segment lists relative to the repository root.  The two
JavaScript files recovered from the bundle are `profile.router.js`
(named by its own header comment; its router directory follows from the
entry file requiring `./router/profile.router`) and the application
entry file, which lives directly in `Workouts` (it requires
`./middleware/date` and `./router/profile.router`); its exact base name
is unknown and `index.js` stands for it.  The fifteen Markdown documents
with unknown names keep their bundle identifiers.  Markdown files
execute no `require` calls; the snippets inside them are quoted text.
-/

/-- Every file of the repository. -/
def repoFiles : List (List String) :=
  [["README.md"],
   ["Authentication-Authorization", "authentication.md"],
   ["Databases", "crud.operations.md"],
   ["Deployment", "ci.cd.md"],
   ["Deployment", "cloud.platforms.md"],
   ["Deployment", "preparing.deployment.md"],
   ["Error-Handling", "centralized.handling.md"],
   ["Forms", "upload.file.md"],
   ["Logging-Debugging", "logging.md"],
   ["Middleware", "built.in.md"],
   ["Optimization", "concurrency.clustering.md"],
   ["Optimization", "optimizing.express.md"],
   ["Routing", "advanced.md"],
   ["Session-Cookies", "cookies.md"],
   ["Session-Cookies", "session.md"],
   ["Template-Engine", "integration.md"],
   ["Testing", "unit.testing.md"],
   ["WebSockets", "introduction.md"],
   ["WebSockets", "socket.io.md"],
   ["Workouts", "middleware", "auth.js"],
   ["Workouts", "middleware", "date.js"],
   ["Workouts", "router", "profile.router.js"],
   ["Workouts", "index.js"],
   ["unnamed", "part_000"], ["unnamed", "part_001"], ["unnamed", "part_002"],
   ["unnamed", "part_003"], ["unnamed", "part_004"], ["unnamed", "part_005"],
   ["unnamed", "part_006"], ["unnamed", "part_007"], ["unnamed", "part_008"],
   ["unnamed", "part_009"], ["unnamed", "part_010"], ["unnamed", "part_011"],
   ["unnamed", "part_012"], ["unnamed", "part_013"], ["unnamed", "part_014"]]

/-- The module specifiers each file passes to `require`.  Markdown
files require nothing. -/
def requiresOf : List String → List String
  | ["Workouts", "middleware", "auth.js"] => ["jsonwebtoken"]
  | ["Workouts", "middleware", "date.js"] => []
  | ["Workouts", "router", "profile.router.js"] =>
      ["express", "../middleware/auth"]
  | ["Workouts", "index.js"] =>
      ["express", "path", "./middleware/date", "./router/profile.router"]
  | _ => []

/-- Node resolves a specifier against the file system only when it
starts with `./` or `../`; bare names go to `node_modules`. -/
def isRelativeRequire (s : String) : Bool :=
  match (jsSplit '/' s).head? with
  | some "." => true
  | some ".." => true
  | _ => false

/-- Walking a relative path from a directory: `.` stays, `..` goes up,
a name descends. -/
def resolveSegs : List String → List String → List String
  | dir, [] => dir
  | dir, seg :: rest =>
      if seg = "." then resolveSegs dir rest
      else if seg = ".." then resolveSegs dir.dropLast rest
      else resolveSegs (dir ++ [seg]) rest

/-- Node appends the `.js` extension when the specifier omits it. -/
def addJsExt (p : List String) : List String :=
  p.dropLast ++ [p.getLastD "" ++ ".js"]

/-- Resolving a require specifier issued from a file: relative
specifiers resolve against the file's directory and gain the `.js`
extension; bare specifiers resolve outside the repository. -/
def resolveRequire (fromFile : List String) (target : String) :
    Option (List String) :=
  if isRelativeRequire target then
    some (addJsExt (resolveSegs fromFile.dropLast (jsSplit '/' target)))
  else none

/-- The internal require edges of the repository: which file requires
which other repository file. -/
def internalRequireEdges : List (List String × List String) :=
  [(["Workouts", "router", "profile.router.js"],
    ["Workouts", "middleware", "auth.js"]),
   (["Workouts", "index.js"], ["Workouts", "middleware", "date.js"]),
   (["Workouts", "index.js"], ["Workouts", "router", "profile.router.js"])]

/-- The repository files a given file actually reaches through its
`require` calls: resolve every specifier and keep the results that name
a file of the repository. -/
def internalTargets (f : List String) : List (List String) :=
  ((requiresOf f).filterMap (resolveRequire f)).filter
    fun r => repoFiles.contains r

/-!
## The cluster example of src/Optimization/concurrency.clustering.md

The only code in the repository using the Node `cluster` module.  The
master forks one worker per CPU core, and its `exit` listener only logs
the dead worker; each worker starts an Express server on port 3000
whose root handler greets with its pid.
-/

/-- What the cluster master emits. -/
inductive MasterEvent where
  | fork : MasterEvent
  | log : String → MasterEvent
  deriving DecidableEq, Repr

/-- What a cluster worker emits. -/
inductive WorkerEvent where
  | listen : Nat → WorkerEvent
  | respond : String → WorkerEvent
  deriving DecidableEq, Repr

/-- Master startup: `for (let i = 0; i < numCPUs; i++) cluster.fork()`. -/
def masterStartup (numCPUs : Nat) : List MasterEvent :=
  (List.range numCPUs).map fun _ => MasterEvent.fork

/-- The `cluster.on` listener for a worker death: logs
`Worker <pid> died` and nothing else. -/
def masterWorkerDied (workerPid : Nat) : List MasterEvent :=
  [MasterEvent.log ("Worker " ++ toString workerPid ++ " died")]

/-- A worker process: creates an Express app and listens on port
3000. -/
def workerMain (_pid : Nat) : List WorkerEvent :=
  [WorkerEvent.listen 3000]

/-- The worker root route: `res.send(Hello from Worker + pid)`. -/
def workerRootHandler (pid : Nat) : List WorkerEvent :=
  [WorkerEvent.respond ("Hello from Worker " ++ toString pid)]

/-!
## Helper lemmas
-/

/-- Splitting a list that contains no separator yields one segment. -/
theorem splitAux_no_sep (sep : Char) :
    ∀ (l acc : List Char), (∀ c ∈ l, c ≠ sep) →
      splitAux sep l acc = [acc.reverse ++ l]
  | [], _, _ => by simp [splitAux]
  | c :: rest, acc, h => by
      have hc : c ≠ sep := h c (by simp)
      have ih := splitAux_no_sep sep rest (c :: acc)
        (fun x hx => h x (by simp [hx]))
      simp [splitAux, hc, ih, List.append_assoc]

/-- JavaScript split leaves a separator-free string whole. -/
theorem jsSplit_no_sep (sep : Char) (s : String)
    (h : ∀ c ∈ s.toList, c ≠ sep) : jsSplit sep s = [s] := by
  unfold jsSplit
  rw [splitAux_no_sep sep s.toList [] h]
  simp only [List.reverse_nil, List.nil_append, List.map_cons, List.map_nil]
  exact congrArg (fun x => [x]) (String.asString_toList s)

/-- Exhaustive characterization of `verifyToken`: the four paths of the
source, with the exact trace of each. -/
theorem verifyToken_spec (verify : String → Option String) (req : Request) :
    (isFalsyHeader (req.headers.lookup "authorization") = true ∧
      verifyToken verify req =
        (req, [Event.sendResponse 403 "Access denied, token missing"])) ∨
    (∃ v, req.headers.lookup "authorization" = some v ∧ v ≠ "" ∧
      (((jsSplit ' ' v)[1]? = none ∧
          verifyToken verify req =
            (req, [Event.verifyCalled none,
                   Event.sendResponse 401 "Invalid token"])) ∨
       (∃ t, (jsSplit ' ' v)[1]? = some t ∧
         ((verify t = none ∧
             verifyToken verify req =
               (req, [Event.verifyCalled (some t),
                      Event.sendResponse 401 "Invalid token"])) ∨
          (∃ p, verify t = some p ∧
             verifyToken verify req =
               ({ req with user := some p },
                [Event.verifyCalled (some t), Event.setUser p,
                 Event.callNext])))))) := by
  cases hf : isFalsyHeader (req.headers.lookup "authorization") with
  | true =>
      exact Or.inl ⟨rfl, by simp [verifyToken, hf]⟩
  | false =>
      right
      rcases hl : req.headers.lookup "authorization" with _ | v
      · rw [hl] at hf; simp [isFalsyHeader] at hf
      · rw [hl] at hf
        refine ⟨v, rfl, ?_, ?_⟩
        · intro hv
          rw [hv] at hf
          simp [isFalsyHeader] at hf
        · rcases ha : (jsSplit ' ' v)[1]? with _ | t
          · exact Or.inl ⟨rfl, by simp [verifyToken, hf, hl, ha]⟩
          · refine Or.inr ⟨t, rfl, ?_⟩
            rcases hv : verify t with _ | p
            · exact Or.inl ⟨rfl, by simp [verifyToken, hf, hl, ha, hv]⟩
            · exact Or.inr ⟨p, rfl, by simp [verifyToken, hf, hl, ha, hv]⟩

/-!
## Claim theorems
-/

/-- C3: for every request whose headers contain no truthy authorization
entry (the header is absent or the empty string), `verifyToken` responds
with HTTP status 403 and message `Access denied, token missing`, does
not call `jwt.verify`, does not set `req.user`, and does not call
`next`. -/
theorem verifyToken_missing_token (verify : String → Option String)
    (req : Request)
    (h : req.headers.lookup "authorization" = none ∨
         req.headers.lookup "authorization" = some "") :
    verifyToken verify req =
      (req, [Event.sendResponse 403 "Access denied, token missing"]) ∧
    (∀ a, Event.verifyCalled a ∉ (verifyToken verify req).2) ∧
    (∀ p, Event.setUser p ∉ (verifyToken verify req).2) ∧
    Event.callNext ∉ (verifyToken verify req).2 := by
  have hf : isFalsyHeader (req.headers.lookup "authorization") = true := by
    rcases h with h | h <;> simp [h, isFalsyHeader]
  have he : verifyToken verify req =
      (req, [Event.sendResponse 403 "Access denied, token missing"]) := by
    simp [verifyToken, hf]
  exact ⟨he, fun a => by simp [he], fun p => by simp [he], by simp [he]⟩

/-- Witness for C3 at a concrete request with no authorization
header. -/
theorem verifyToken_missing_token_witness :
    verifyToken sampleVerify reqNoAuth =
      (reqNoAuth, [Event.sendResponse 403 "Access denied, token missing"]) ∧
    Event.callNext ∉ (verifyToken sampleVerify reqNoAuth).2 :=
  ⟨(verifyToken_missing_token sampleVerify reqNoAuth (Or.inl (by decide))).1,
   (verifyToken_missing_token sampleVerify reqNoAuth
      (Or.inl (by decide))).2.2.2⟩

/-- C4: `verifyToken` verifies only the second space-separated segment
of the Authorization header.  A space-free header value makes the
argument passed to `jwt.verify` the JavaScript `undefined`, so the
middleware responds 401 `Invalid token` and never calls `next`, even
when the bare value itself is a valid token; and control passes to
`next`, with `req.user` set to the decoded payload, exactly when the
segment after the first space verifies against the secret key. -/
theorem verifyToken_splits_header (verify : String → Option String)
    (req : Request) :
    (∀ v, req.headers.lookup "authorization" = some v → v ≠ "" →
       (∀ c ∈ v.toList, c ≠ ' ') →
       verifyToken verify req =
         (req, [Event.verifyCalled none,
                Event.sendResponse 401 "Invalid token"])) ∧
    (∀ v t p, req.headers.lookup "authorization" = some v → v ≠ "" →
       (jsSplit ' ' v)[1]? = some t → verify t = some p →
       verifyToken verify req =
         ({ req with user := some p },
          [Event.verifyCalled (some t), Event.setUser p,
           Event.callNext])) ∧
    (Event.callNext ∈ (verifyToken verify req).2 ↔
       ∃ v t p, req.headers.lookup "authorization" = some v ∧ v ≠ "" ∧
         (jsSplit ' ' v)[1]? = some t ∧ verify t = some p) := by
  refine ⟨?_, ?_, ?_⟩
  · intro v hl hv hns
    have hf : isFalsyHeader (some v) = false := by simp [isFalsyHeader, hv]
    have hsplit : (jsSplit ' ' v)[1]? = none := by
      rw [jsSplit_no_sep ' ' v hns]; rfl
    simp [verifyToken, hl, hf, hsplit]
  · intro v t p hl hv ha hp
    have hf : isFalsyHeader (some v) = false := by simp [isFalsyHeader, hv]
    simp [verifyToken, hl, hf, ha, hp]
  · constructor
    · intro hmem
      rcases verifyToken_spec verify req with ⟨_, he⟩ |
        ⟨v, hl, hv, ⟨_, he⟩ | ⟨t, ha, ⟨_, he⟩ | ⟨p, hp, he⟩⟩⟩
      · rw [he] at hmem; simp at hmem
      · rw [he] at hmem; simp at hmem
      · rw [he] at hmem; simp at hmem
      · exact ⟨v, t, p, hl, hv, ha, hp⟩
    · rintro ⟨v, t, p, hl, hv, ha, hp⟩
      have hf : isFalsyHeader (some v) = false := by simp [isFalsyHeader, hv]
      simp [verifyToken, hl, hf, ha, hp]

/-- Witness for C4: a bare valid token without a space is rejected with
401 even though the oracle accepts the very same string. -/
theorem verifyToken_splits_header_witness :
    verifyToken sampleVerify reqBareGood =
      (reqBareGood, [Event.verifyCalled none,
                     Event.sendResponse 401 "Invalid token"]) ∧
    sampleVerify "goodtoken" = some "decoded-payload" :=
  ⟨(verifyToken_splits_header sampleVerify reqBareGood).1 "goodtoken"
      (by decide) (by decide) (by decide),
   by decide⟩

/-- C5: every middleware defined in `src/Workouts/middleware` either
calls `next` exactly once and sends no response, or sends exactly one
response and never calls `next` — never both and never neither. -/
theorem middleware_next_xor_response (verify : String → Option String)
    (req : Request) (timeStr dateStr : String) :
    ((nextCount (verifyToken verify req).2 = 1 ∧
      responseCount (verifyToken verify req).2 = 0) ∨
     (nextCount (verifyToken verify req).2 = 0 ∧
      responseCount (verifyToken verify req).2 = 1)) ∧
    (nextCount (printDate timeStr dateStr req).2 = 1 ∧
     responseCount (printDate timeStr dateStr req).2 = 0) := by
  constructor
  · rcases verifyToken_spec verify req with ⟨_, he⟩ |
      ⟨v, _, _, ⟨_, he⟩ | ⟨t, _, ⟨_, he⟩ | ⟨p, _, he⟩⟩⟩
    · exact Or.inr (by rw [he]; exact ⟨rfl, rfl⟩)
    · exact Or.inr (by rw [he]; exact ⟨rfl, rfl⟩)
    · exact Or.inr (by rw [he]; exact ⟨rfl, rfl⟩)
    · exact Or.inl (by rw [he]; exact ⟨rfl, rfl⟩)
  · exact ⟨rfl, rfl⟩

/-- C7: `printDate` calls `next` exactly once, sends no response, never
touches `req.user`, and returns the request unchanged; its only effect
is the console log of the time and date. -/
theorem printDate_frame (req : Request) (timeStr dateStr : String) :
    (printDate timeStr dateStr req).1 = req ∧
    (printDate timeStr dateStr req).2 =
      [Event.consoleLog (timeStr ++ ", " ++ dateStr), Event.callNext] ∧
    nextCount (printDate timeStr dateStr req).2 = 1 ∧
    responseCount (printDate timeStr dateStr req).2 = 0 ∧
    (∀ p, Event.setUser p ∉ (printDate timeStr dateStr req).2) := by
  refine ⟨rfl, rfl, rfl, rfl, fun p => ?_⟩
  simp [printDate]

/-- C1 counterexample: `verifyToken` does have original conditional
branching — on concrete requests it produces distinct outcome classes,
so it is not a branch-free thin wrapper around a single API call. -/
theorem verifyToken_branching_counterexample :
    ¬ inputInsensitive (verifyToken sampleVerify) := fun h =>
  absurd (h reqNoAuth reqBadToken) (by decide)

/-- C1 amended: every JavaScript function of the repository other than
`verifyToken` is a branch-free thin wrapper producing the same outcome
class on every input, while `verifyToken` carries a three-way
conditional of its own, with outcome classes 403, 401 and
pass-through. -/
theorem js_functions_branching (verify : String → Option String)
    (req : Request) (timeStr dateStr : String) :
    inputInsensitive (printDate timeStr dateStr) ∧
    inputInsensitive homeHandler ∧
    inputInsensitive contactHandler ∧
    inputInsensitive aboutHandler ∧
    inputInsensitive blogHandler ∧
    inputInsensitive wildcardHandler ∧
    inputInsensitive profileHandler ∧
    (behaviorOf (verifyToken verify req).2 = some 403 ∨
     behaviorOf (verifyToken verify req).2 = some 401 ∨
     behaviorOf (verifyToken verify req).2 = none) := by
  refine ⟨fun i j => rfl, fun i j => rfl, fun i j => rfl, fun i j => rfl,
    fun i j => rfl, fun i j => rfl, fun i j => rfl, ?_⟩
  rcases verifyToken_spec verify req with ⟨_, he⟩ |
    ⟨v, _, _, ⟨_, he⟩ | ⟨t, _, ⟨_, he⟩ | ⟨p, _, he⟩⟩⟩
  · exact Or.inl (by rw [he]; rfl)
  · exact Or.inr (Or.inl (by rw [he]; rfl))
  · exact Or.inr (Or.inl (by rw [he]; rfl))
  · exact Or.inr (Or.inr (by rw [he]; rfl))

/-- C2 counterexample: `verifyToken` distinguishes two failure modes —
a missing token gets 403 `Access denied, token missing`, a failing
token gets 401 `Invalid token`. -/
theorem verifyToken_failure_modes_counterexample :
    failureResponses (verifyToken sampleVerify reqNoAuth).2 =
      [(403, "Access denied, token missing")] ∧
    failureResponses (verifyToken sampleVerify reqBadToken).2 =
      [(401, "Invalid token")] ∧
    ((403 : Nat), "Access denied, token missing") ≠
      ((401 : Nat), "Invalid token") := by decide

/-- C2 amended: `verifyToken` is the one function distinguishing
failure modes, and it distinguishes exactly two — 403 for a missing
token and 401 for an invalid one; `printDate` sends no response at
all. -/
theorem failure_modes_amended (verify : String → Option String)
    (req : Request) (timeStr dateStr : String) :
    (failureResponses (verifyToken verify req).2 =
       [(403, "Access denied, token missing")] ∨
     failureResponses (verifyToken verify req).2 =
       [(401, "Invalid token")] ∨
     failureResponses (verifyToken verify req).2 = []) ∧
    failureResponses (printDate timeStr dateStr req).2 = [] := by
  refine ⟨?_, rfl⟩
  rcases verifyToken_spec verify req with ⟨_, he⟩ |
    ⟨v, _, _, ⟨_, he⟩ | ⟨t, _, ⟨_, he⟩ | ⟨p, _, he⟩⟩⟩
  · exact Or.inl (by rw [he]; rfl)
  · exact Or.inr (Or.inl (by rw [he]; rfl))
  · exact Or.inr (Or.inl (by rw [he]; rfl))
  · exact Or.inr (Or.inr (by rw [he]; rfl))

/-- C6 counterexample: the basic error handler of the error-handling
document responds 500 even when the error carries status 404, so not
every handler shown responds with `err.status` when present. -/
theorem basic_error_handler_counterexample :
    (basicErrorHandler { status := some 404, message := some "Not found" }
        reqNoAuth).1 = 500 ∧
    jsOrNat (some 404) 500 = 404 ∧
    (500 : Nat) ≠ 404 := by decide

/-- C6 amended: every error handler shown takes the error object first;
the three centralized handlers using `err.status || 500` respond with
the carried truthy status and fall back to 500 without one, while the
five generic handlers respond 500 unconditionally. -/
theorem error_handlers_status (err : ErrObj) (req : Request) :
    (∀ s, err.status = some s → s ≠ 0 →
       (structuredErrorHandler err req).1 = s ∧
       (customErrorHandler err req).1 = s ∧
       (comprehensiveErrorHandler err req).1 = s) ∧
    (err.status = none →
       (structuredErrorHandler err req).1 = 500 ∧
       (customErrorHandler err req).1 = 500 ∧
       (comprehensiveErrorHandler err req).1 = 500) ∧
    ((basicErrorHandler err req).1 = 500 ∧
     (basicErrorHandler2 err req).1 = 500 ∧
     (syncErrorHandler err req).1 = 500 ∧
     (asyncErrorHandler err req).1 = 500 ∧
     (centralizedErrorHandler2 err req).1 = 500) := by
  refine ⟨?_, ?_, rfl, rfl, rfl, rfl, rfl⟩
  · intro s hs hz
    cases s with
    | zero => exact absurd rfl hz
    | succ n =>
        refine ⟨?_, ?_, ?_⟩ <;>
          simp [structuredErrorHandler, customErrorHandler,
            comprehensiveErrorHandler, jsOrNat, hs]
  · intro hs
    refine ⟨?_, ?_, ?_⟩ <;>
      simp [structuredErrorHandler, customErrorHandler,
        comprehensiveErrorHandler, jsOrNat, hs]

/-- Witness for the amended C6 at a concrete 404 error. -/
theorem error_handlers_status_witness :
    (structuredErrorHandler { status := some 404, message := none }
        reqNoAuth).1 = 404 :=
  ((error_handlers_status { status := some 404, message := none }
      reqNoAuth).1 404 rfl (by decide)).1

/-- C8 counterexample: the `UserSchema` of the introductory document —
one of the claim sources — has only the two fields `name` and `email`,
and the document constructed there supplies only those two, not the
three fields `name`, `email`, `age`. -/
theorem intro_user_schema_counterexample :
    introUserSchemaFields.map Prod.fst = ["name", "email"] ∧
    introUserSchemaFields.map Prod.fst ≠ ["name", "email", "age"] ∧
    suppliesExactly introCreateDoc introUserSchemaFields ∧
    ¬ suppliesExactly introCreateDoc crudUserSchemaFields := by decide

/-- C8 amended: the CRUD tutorial and the database-connection document
give the User shape exactly the fields `name` (String), `email`
(String), `age` (Number), and both CRUD example documents supply
exactly those fields; but the introductory document declares only
`name` and `email` and constructs a document with just those, and the
Passport register example constructs a User from `username` and
`password`. -/
theorem user_schemas_amended :
    crudUserSchemaFields =
      [("name", FieldType.str), ("email", FieldType.str),
       ("age", FieldType.num)] ∧
    dbConnectionUserSchemaFields.map Prod.fst = ["name", "email", "age"] ∧
    suppliesExactly crudCreateDoc crudUserSchemaFields ∧
    suppliesExactly crudCreateDoc2 crudUserSchemaFields ∧
    introUserSchemaFields.map Prod.fst = ["name", "email"] ∧
    suppliesExactly introCreateDoc introUserSchemaFields ∧
    passportRegisterDoc.map Prod.fst = ["username", "password"] := by decide

/-- C9 counterexample: `profile.router.js` requires
`../middleware/auth`, which resolves to the repository file
`Workouts/middleware/auth.js` — one file of the repository does require
another. -/
theorem internal_require_counterexample :
    ["Workouts", "router", "profile.router.js"] ∈ repoFiles ∧
    "../middleware/auth" ∈
      requiresOf ["Workouts", "router", "profile.router.js"] ∧
    resolveRequire ["Workouts", "router", "profile.router.js"]
        "../middleware/auth" =
      some ["Workouts", "middleware", "auth.js"] ∧
    ["Workouts", "middleware", "auth.js"] ∈ repoFiles := by decide

/-- C9 amended: the only cross-file requires in the repository are the
three edges of the Workouts demo app — the router requires the auth
middleware, and the entry file requires the date middleware and the
router; every other file, in particular every Markdown document,
requires no repository file. -/
theorem internal_requires_amended :
    (∀ f ∈ repoFiles, ∀ r ∈ internalTargets f,
       (f, r) ∈ internalRequireEdges) ∧
    (∀ e ∈ internalRequireEdges,
       e.1 ∈ repoFiles ∧ e.2 ∈ repoFiles ∧ e.2 ∈ internalTargets e.1) := by
  decide

/-- Witness for the amended C9 at the entry-file edge. -/
theorem internal_requires_amended_witness :
    (["Workouts", "index.js"], ["Workouts", "middleware", "date.js"]) ∈
      internalRequireEdges :=
  internal_requires_amended.1 ["Workouts", "index.js"] (by decide)
    ["Workouts", "middleware", "date.js"] (by decide)

/-- C10: in the cluster tutorial example the master forks exactly one
worker per CPU core, its reaction to a worker exit is a log entry and
nothing else (in particular no replacement fork), and every worker runs
an Express server listening on port 3000. -/
theorem cluster_example_behavior (numCPUs workerPid pid : Nat) :
    (masterStartup numCPUs).length = numCPUs ∧
    (∀ e ∈ masterStartup numCPUs, e = MasterEvent.fork) ∧
    MasterEvent.fork ∉ masterWorkerDied workerPid ∧
    (∀ e ∈ masterWorkerDied workerPid, ∃ s, e = MasterEvent.log s) ∧
    workerMain pid = [WorkerEvent.listen 3000] := by
  refine ⟨by simp [masterStartup], ?_, ?_, ?_, rfl⟩
  · intro e he
    simp [masterStartup] at he
    exact he.2
  · simp [masterWorkerDied]
  · intro e he
    simp [masterWorkerDied] at he
    exact ⟨_, he⟩

/-- Witness for C10 on a four-core machine and a concrete worker. -/
theorem cluster_example_behavior_witness :
    (masterStartup 4).length = 4 ∧
    MasterEvent.fork ∉ masterWorkerDied 1234 :=
  ⟨(cluster_example_behavior 4 1234 1).1,
   (cluster_example_behavior 4 1234 1).2.2.1⟩
